import Mathlib

/-!
Shallow embedding of the Mortality-Audit-App-Pediatrics data pipeline:
`pages/step1_upload_validate.py` (validate_and_normalize, sample_df, CSV
round-trip), `pages/step2_mortality_analysis.py` and
`pages/step3_detailed_analysis.py` (is_death, monthly summaries, month
comparison) and `pages/step4_diagnosis_age.py` (age_group, age_counts).

Pandas cells are modelled by an inductive `Cell` (missing / numeric /
string / parsed date); a dataframe is a list of named columns of cells.
Machine floats are modelled by exact rationals; `round` is numpy's
round-half-to-even.  All string manipulation is done over `List Char`
so every definition evaluates by kernel reduction.
-/

namespace MortalityAudit

/-- A value held in one pandas cell: missing (NaN/NaT/NA), a numeric
value (floats modelled as exact rationals), a string, or a parsed
datetime (year, month, day) as produced by `pd.to_datetime`. -/
inductive Cell where
  | na : Cell
  | num : ℚ → Cell
  | str : String → Cell
  | date : Nat → Nat → Nat → Cell
deriving DecidableEq

/-- A dataframe: named columns of cells, in column order. -/
structure RawTable where
  cols : List (String × List Cell)
deriving DecidableEq

/-- First column with the given (exact) name, like `df[c]`. -/
def getCol (t : RawTable) (n : String) : Option (List Cell) :=
  match t.cols.find? (fun p => p.1 = n) with
  | some p => some p.2
  | none => none

/-- Column lookup defaulting to the empty column. -/
def getColD (t : RawTable) (n : String) : List Cell :=
  (getCol t n).getD []

/-- Membership test `c in df.columns`. -/
def hasCol (t : RawTable) (n : String) : Bool :=
  t.cols.any (fun p => p.1 = n)

/-- Assignment `df[n] = v`: drop any existing binding of `n` and append
the new column (lookup order for other names is unchanged). -/
def setCol (t : RawTable) (n : String) (v : List Cell) : RawTable :=
  ⟨(t.cols.filter (fun p => ¬ p.1 = n)) ++ [(n, v)]⟩

/-- Number of rows, read off the first column. -/
def nrows (t : RawTable) : Nat :=
  match t.cols with
  | [] => 0
  | c :: _ => c.2.length

/- ### Character-list string helpers (Python str methods) -/

/-- Python `str.strip` on a char list: drop leading whitespace. -/
def dropWS : List Char → List Char
  | [] => []
  | c :: cs => if c.isWhitespace then dropWS cs else c :: cs

/-- Python `str.strip`: drop leading and trailing whitespace. -/
def stripChars (cs : List Char) : List Char :=
  dropWS ((dropWS cs.reverse).reverse)

/-- Python `str.strip` on a string. -/
def pyStrip (s : String) : String := String.mk (stripChars s.data)

/-- Python `str.lower` (ASCII). -/
def pyLower (s : String) : String := String.mk (s.data.map Char.toLower)

/-- Python `str.upper` (ASCII). -/
def pyUpper (s : String) : String := String.mk (s.data.map Char.toUpper)

/-- Whether `pat` occurs at the start of `cs`. -/
def beginsWith : List Char → List Char → Bool
  | [], _ => true
  | _ :: _, [] => false
  | p :: ps, c :: cs => p = c && beginsWith ps cs

/-- Python `pat in s`: substring containment. -/
def hasSub (hay pat : List Char) : Bool :=
  match hay with
  | [] => pat.isEmpty
  | _ :: t => beginsWith pat hay || hasSub t pat

/-- Python `pat in s` on strings. -/
def pyContains (s pat : String) : Bool := hasSub s.data pat.data

/-- Python `s.startswith(pat)` on strings. -/
def pyStarts (s pat : String) : Bool := beginsWith pat.data s.data

/-- Helper for `str.title`: the boolean records whether the previous
character was alphabetic (i.e. we are inside a word). -/
def titleAux : Bool → List Char → List Char
  | _, [] => []
  | inWord, c :: cs =>
    let c' := if c.isAlpha then (if inWord then c.toLower else c.toUpper) else c
    c' :: titleAux c.isAlpha cs

/-- Python `str.title`: capitalize the first letter of each word,
lowercase the rest. -/
def pyTitle (s : String) : String := String.mk (titleAux false s.data)

/- ### Decimal rendering and parsing -/

/-- Digit character for `d < 10`. -/
def digitChar (d : Nat) : Char := Char.ofNat (48 + d)

/-- Fuel-driven decimal digits of a natural number (fuel ≥ number of
digits; structural recursion so concrete values reduce in the kernel). -/
def natDigitsAux : Nat → Nat → List Char
  | 0, _ => []
  | fuel + 1, n =>
    if n < 10 then [digitChar n] else natDigitsAux fuel (n / 10) ++ [digitChar (n % 10)]

/-- Decimal rendering of a natural number. -/
def natStr (n : Nat) : String := String.mk (natDigitsAux (n + 1) n)

/-- Decimal rendering of an integer. -/
def intStr (i : ℤ) : String :=
  if i < 0 then String.mk ('-' :: (natStr i.natAbs).data) else natStr i.natAbs

/-- Value of a most-significant-first list of decimal digit characters,
or `none` if some character is not a digit. -/
def digitsVal : List Char → Option Nat
  | [] => some 0
  | c :: cs =>
    if c.isDigit then
      match digitsVal cs with
      | some v => some ((c.toNat - 48) * 10 ^ cs.length + v)
      | none => none
    else none

/-- Split a char list on a separator character. -/
def splitOnChar (sep : Char) : List Char → List (List Char)
  | [] => [[]]
  | c :: cs =>
    match splitOnChar sep cs with
    | [] => [[c]]
    | g :: gs => if c = sep then [] :: g :: gs else (c :: g) :: gs

/-- Model of `pd.to_numeric(·, errors="coerce")` on a single textual
value: an optional leading minus sign, a non-empty integer part, and an
optional fractional part after one decimal point.  Anything else
coerces to NaN (`none`). -/
def parseNum (s : String) : Option ℚ :=
  let cs := s.data
  let core : List Char → Option ℚ := fun body =>
    match splitOnChar '.' body with
    | [ip] =>
      if ip.isEmpty then none else
      match digitsVal ip with
      | some v => some (v : ℚ)
      | none => none
    | [ip, fp] =>
      if ip.isEmpty then none else
      match digitsVal ip, digitsVal fp with
      | some v, some f => some ((v : ℚ) + (f : ℚ) / (10 : ℚ) ^ fp.length)
      | _, _ => none
    | _ => none
  match cs with
  | '-' :: rest => (core rest).map (fun q => -q)
  | _ => core cs

/-- Model of `pd.to_datetime(·, errors="coerce")` on a textual value in
`YYYY-MM-DD` form: three dash-separated digit groups with a positive
year, month in 1..12 and day in 1..31; anything else coerces to NaT. -/
def parseDateStr (s : String) : Option (Nat × Nat × Nat) :=
  match splitOnChar '-' s.data with
  | [ys, ms, ds] =>
    if ys.isEmpty || ms.isEmpty || ds.isEmpty then none else
    match digitsVal ys, digitsVal ms, digitsVal ds with
    | some y, some m, some d =>
      if 1 ≤ y && 1 ≤ m && m ≤ 12 && 1 ≤ d && d ≤ 31 then some (y, m, d) else none
    | _, _, _ => none
  | _ => none

/-- Model of `pd.to_datetime(col, errors="coerce")` on one cell: parse
strings, keep parsed dates, coerce everything else to NaT. -/
def toDT (c : Cell) : Cell :=
  match c with
  | Cell.str s =>
    match parseDateStr s with
    | some (y, m, d) => Cell.date y m d
    | none => Cell.na
  | Cell.date y m d => Cell.date y m d
  | _ => Cell.na

/-- Whether a cell is a parsed (non-NaT) datetime. -/
def isDate (c : Cell) : Bool :=
  match c with
  | Cell.date _ _ _ => true
  | _ => false

/-- Whether a cell is a string. -/
def isStrCell (c : Cell) : Bool :=
  match c with
  | Cell.str _ => true
  | _ => false

/-- Rendering of a float-valued rational the way Python prints a float
(used only for integral values in this development). -/
def ratStr (q : ℚ) : String :=
  if q.den = 1 then String.mk ((intStr q.num).data ++ ('.' :: ['0']))
  else String.mk ((intStr q.num).data ++ ('/' :: (natStr q.den).data))

/-- Model of `astype(str)` on one cell: NaN prints as "nan", strings are
unchanged, numbers print as floats, datetimes in ISO form. -/
def cellToStr (c : Cell) : String :=
  match c with
  | Cell.na => "nan"
  | Cell.str s => s
  | Cell.num q => ratStr q
  | Cell.date y m d =>
    String.mk ((natStr y).data ++ ('-' :: (pad2 m).data) ++ ('-' :: (pad2 d).data))
where
  /-- Two-digit zero-padded rendering. -/
  pad2 (n : Nat) : String :=
    if n < 10 then String.mk ('0' :: (natStr n).data) else natStr n

/-- The `YYYY-MM` label of a period, as `Period.astype(str)` prints it. -/
def periodStr (y m : Nat) : String :=
  String.mk ((natStr y).data ++ ('-' :: (cellToStr.pad2 m).data))

/-- Model of `pd.to_numeric(·, errors="coerce")` on one cell. -/
def toNumeric (c : Cell) : Option ℚ :=
  match c with
  | Cell.num q => some q
  | Cell.str s => parseNum s
  | _ => none

/- ### Rounding and medians -/

/-- Floor of a rational as an integer. -/
def ratFloor (q : ℚ) : ℤ := Int.fdiv q.num q.den

/-- Numpy rounding to the nearest integer, ties to the even integer
(the `round` used by `.round()` on pandas/numpy values). -/
def roundHalfEven (q : ℚ) : ℤ :=
  let f := ratFloor q
  let r := q - (f : ℚ)
  if r < 1 / 2 then f
  else if 1 / 2 < r then f + 1
  else if f % 2 = 0 then f else f + 1

/-- Numpy `.round(2)`: round to two decimal places, ties to even. -/
def round2 (q : ℚ) : ℚ := (roundHalfEven (q * 100) : ℚ) / 100

/-- Insert into a sorted list of rationals. -/
def insertRat (x : ℚ) : List ℚ → List ℚ
  | [] => [x]
  | y :: ys => if x ≤ y then x :: y :: ys else y :: insertRat x ys

/-- Insertion sort for rationals. -/
def sortRats : List ℚ → List ℚ
  | [] => []
  | x :: xs => insertRat x (sortRats xs)

/-- Pandas `Series.median`: middle element of the sorted values, or the
mean of the two middle elements for an even count. -/
def median (l : List ℚ) : ℚ :=
  let s := sortRats l
  let n := s.length
  if n % 2 = 1 then s.getD (n / 2) 0
  else (s.getD (n / 2 - 1) 0 + s.getD (n / 2) 0) / 2

/- ### The normalizer of `pages/step1_upload_validate.py` -/

/-- The date columns recognized in step 1. -/
def recognized_date_cols : List String := ["admission_date", "discharge_date", "death_date"]

/-- Trim whitespace from every column name:
`df.columns = [str(c).strip() for c in df.columns]`. -/
def stripCols (t : RawTable) : RawTable :=
  ⟨t.cols.map (fun p => (pyStrip p.1, p.2))⟩

/-- The minimal-column candidates of step 1. -/
def minimal_candidates : List String := ["admission_date", "outcome", "primary_diagnosis"]

/-- Whether at least one minimal column is present:
`any(c in df.columns for c in minimal_candidates)`. -/
def minPresent (t : RawTable) : Bool :=
  minimal_candidates.any (fun c => hasCol t c)

/-- Coerce every recognized date column that is present with
`pd.to_datetime(·, errors="coerce")`. -/
def coerceDates (t : RawTable) : RawTable :=
  recognized_date_cols.foldl
    (fun acc c => if hasCol acc c then setCol acc c ((getColD acc c).map toDT) else acc) t

/-- One cell of `(pd.to_numeric(col) * k).round().astype("Int64")`. -/
def scaleRound (k : ℚ) (c : Cell) : Cell :=
  match toNumeric c with
  | some q => Cell.num ((roundHalfEven (q * k) : ℤ) : ℚ)
  | none => Cell.na

/-- One cell of `pd.to_numeric(col, errors="coerce")`. -/
def coerceNumCell (c : Cell) : Cell :=
  match toNumeric c with
  | some q => Cell.num q
  | none => Cell.na

/-- Age-derivation block of `validate_and_normalize` (lines 88–112):
precedence `age_days` > bare `age` (median heuristic) > `age_months`
(× 30, rounded) > `age_years` (× 365, rounded); returns the updated
table and the warnings the block emits. -/
def deriveAge (t : RawTable) : RawTable × List String :=
  let noAgeWarn := "No recognizable age columns found (age_days, age_months, age_years)"
  if hasCol t "age_days" then (t, [])
  else if hasCol t "age" then
    let src := getColD t "age"
    let sample := src.filterMap toNumeric
    if sample.isEmpty then (t, [noAgeWarn])
    else
      let med := median sample
      if med ≤ 30 then (setCol t "age_days" (src.map coerceNumCell), [])
      else if med < 100 then (setCol t "age_days" (src.map (scaleRound 30)), [])
      else (setCol t "age_days" (src.map (scaleRound 365)), [])
  else if hasCol t "age_months" then
    (setCol t "age_days" ((getColD t "age_months").map (scaleRound 30)), [])
  else if hasCol t "age_years" then
    (setCol t "age_days" ((getColD t "age_years").map (scaleRound 365)), [])
  else (t, [noAgeWarn])

/-- Sex normalization of one cell (lines 115–117):
`astype(str).str.strip().str.upper().replace({...})`, then kept only if
in {M, F}, else `Unknown`. -/
def normSexCell (c : Cell) : Cell :=
  let u := pyUpper (pyStrip (cellToStr c))
  let u := if u = "MALE" then "M" else if u = "FEMALE" then "F" else u
  if u = "M" ∨ u = "F" then Cell.str u else Cell.str "Unknown"

/-- Sex-normalization block (lines 115–120). -/
def normSex (t : RawTable) : RawTable × List String :=
  if hasCol t "sex" then
    (setCol t "sex_norm" ((getColD t "sex").map normSexCell), [])
  else
    (setCol t "sex_norm" (List.replicate (nrows t) (Cell.str "Unknown")),
      ["No sex column found; created sex_norm = Unknown"])

/-- Outcome normalization of one raw outcome text (line 125): lowercase
and strip, then `Dead` on substring "dead" or leading `d`, `Alive` on
substring "alive" or leading `a`, else title-cased pass-through. -/
def outcomeNormStr (s : String) : String :=
  let x := pyLower (pyStrip s)
  if pyContains x "dead" || pyStarts x "d" then "Dead"
  else if pyContains x "alive" || pyStarts x "a" then "Alive"
  else pyTitle x

/-- Outcome-normalization block (lines 123–129): when no `outcome`
column exists the whole `outcome_norm` column is set to `pd.NA`. -/
def normOutcome (t : RawTable) : RawTable × List String :=
  if hasCol t "outcome" then
    (setCol t "outcome_norm"
      ((getColD t "outcome").map (fun c => Cell.str (outcomeNormStr (cellToStr c)))), [])
  else
    (setCol t "outcome_norm" (List.replicate (nrows t) Cell.na),
      ["No outcome column found. Please add outcome (Alive/Dead)"])

/-- Alias list checked by `col_exists_any` for the diagnosis fallback. -/
def diag_aliases : List String := ["diagnosis", "dx", "primary_dx"]

/-- In-code helper `col_exists_any(df, names)`. -/
def col_exists_any (t : RawTable) (names : List String) : Option String :=
  names.find? (fun n => hasCol t n)

/-- Diagnosis block (lines 132–139): when `primary_diagnosis` is
missing, map the first alias column as text, else fill `UNKNOWN`. -/
def normDiag (t : RawTable) : RawTable × List String :=
  if hasCol t "primary_diagnosis" then (t, [])
  else
    match col_exists_any t diag_aliases with
    | some alt =>
      (setCol t "primary_diagnosis" ((getColD t alt).map (fun c => Cell.str (cellToStr c))),
        ["Mapped diagnosis column to primary_diagnosis"])
    | none =>
      (setCol t "primary_diagnosis" (List.replicate (nrows t) (Cell.str "UNKNOWN")),
        ["No primary_diagnosis found. Filled as UNKNOWN"])

/-- Month of one coerced date cell, `col.dt.to_period("M")`; NaT rows
give a missing month. -/
def monthCell (c : Cell) : Cell :=
  match c with
  | Cell.date y m _ => Cell.str (periodStr y m)
  | _ => Cell.na

/-- Month-derivation block (lines 142–151): `admission_date` if it has
any parsed value, else `death_date`, else a missing month column. -/
def deriveMonth (t : RawTable) : RawTable × List String :=
  if hasCol t "admission_date" && (getColD t "admission_date").any isDate then
    (setCol t "month" ((getColD t "admission_date").map monthCell), [])
  else if hasCol t "death_date" && (getColD t "death_date").any isDate then
    (setCol t "month" ((getColD t "death_date").map monthCell), [])
  else
    (setCol t "month" (List.replicate (nrows t) Cell.na),
      ["No usable date to derive month"])

/-- The normalized table produced on the success path of
`validate_and_normalize`: date coercion, age derivation, sex, outcome
and diagnosis normalization, then month bucketing, in source order. -/
def normalizePipeline (t : RawTable) : RawTable × List String :=
  let t1 := coerceDates t
  let a := deriveAge t1
  let sx := normSex a.1
  let oc := normOutcome sx.1
  let dg := normDiag oc.1
  let mo := deriveMonth dg.1
  (mo.1, a.2 ++ sx.2 ++ oc.2 ++ dg.2 ++ mo.2)

/-- The fatal error message of the minimal-column check. -/
def minimalErr : String :=
  "File must contain at least one of the minimal columns: admission_date, outcome, primary_diagnosis"

/-- Embedding of `validate_and_normalize(df)`: returns the optional
normalized table, the fatal errors and the warnings (the missing-value
report and date anchor of the Python return are presentation-only and
omitted). -/
def validate_and_normalize (t0 : RawTable) : Option RawTable × List String × List String :=
  let t := stripCols t0
  if minPresent t then
    let (n, w) := normalizePipeline t
    (some n, [], w)
  else
    (none, [minimalErr], [])

/- ### The bundled sample table and its CSV round-trip -/

/-- The in-memory `sample_df` of step 1 (lines 28–55): the union of the
two row dicts in first-appearance column order; `age_days` and
`age_months` each hold one integer and one NaN, so pandas stores them
as float columns. -/
def sample_df : RawTable :=
  ⟨[("patient_id", [Cell.str "45991", Cell.str "46781"]),
    ("initials", [Cell.str "J.M.M", Cell.str "D.S.J"]),
    ("sex", [Cell.str "M", Cell.str "F"]),
    ("age_days", [Cell.num 10, Cell.na]),
    ("ward", [Cell.str "NBU", Cell.str "Pediatrics"]),
    ("admission_date", [Cell.str "2025-09-01", Cell.str "2025-09-02"]),
    ("discharge_date", [Cell.str "0000-00-00", Cell.str "2025-09-09"]),
    ("outcome", [Cell.str "Dead", Cell.str "Alive"]),
    ("death_date", [Cell.str "2025-09-04", Cell.str "2025-09-04"]),
    ("primary_diagnosis", [Cell.str "Neonatal Sepsis", Cell.str "Severe Pneumonia"]),
    ("Notes", [Cell.str "SP puncture done", Cell.str "Counseled on danger signs"]),
    ("age_months", [Cell.na, Cell.num 10])]⟩

/-- Whether a cell is numeric or missing. -/
def isNumOrNA (c : Cell) : Bool :=
  match c with
  | Cell.num _ => true
  | Cell.na => true
  | _ => false

/-- Whether a cell is a non-integral number. -/
def isFracNum (c : Cell) : Bool :=
  match c with
  | Cell.num q => decide (q.den ≠ 1)
  | _ => false

/-- CSV rendering of one cell in a float-typed column. -/
def encFloat (c : Cell) : String :=
  match c with
  | Cell.na => ""
  | Cell.num q => ratStr q
  | Cell.str s => s
  | Cell.date y m d => cellToStr (Cell.date y m d)

/-- CSV rendering of one cell in an integer-typed column. -/
def encInt (c : Cell) : String :=
  match c with
  | Cell.na => ""
  | Cell.num q => intStr q.num
  | Cell.str s => s
  | Cell.date y m d => cellToStr (Cell.date y m d)

/-- CSV rendering of one cell in an object-typed column. -/
def encObj (c : Cell) : String :=
  match c with
  | Cell.na => ""
  | Cell.str s => s
  | c => cellToStr c

/-- Model of `DataFrame.to_csv` for one column: pandas renders the
whole column by its dtype — float (any NaN or fractional value among
numbers), int (numbers only), or object. -/
def encodeCol (cells : List Cell) : List String :=
  if cells.all isNumOrNA then
    if cells.any (fun c => c == Cell.na || isFracNum c) then cells.map encFloat
    else cells.map encInt
  else cells.map encObj

/-- Model of `DataFrame.to_csv(index=False)`: the header row followed
by one row of rendered cells per record. -/
def encodeCsv (t : RawTable) : List (List String) :=
  let encCols := t.cols.map (fun p => encodeCol p.2)
  (t.cols.map Prod.fst) :: (List.range (nrows t)).map (fun i => encCols.map (fun col => col.getD i ""))

/-- Model of `pd.read_csv` type inference for one textual cell: empty
cells become NaN, numeric literals become numbers, the rest stay text. -/
def decodeCell (s : String) : Cell :=
  if s = "" then Cell.na
  else
    match parseNum s with
    | some q => Cell.num q
    | none => Cell.str s

/-- Model of `pd.read_csv`: the first row is the header; each header
name yields the column of decoded cells below it. -/
def decodeCsv (g : List (List String)) : RawTable :=
  match g with
  | [] => ⟨[]⟩
  | header :: rows =>
    ⟨header.enum.map (fun p => (p.2, rows.map (fun r => decodeCell (r.getD p.1 ""))))⟩

/- ### Step 2 / step 3: monthly summaries and month comparison -/

/-- The columns of a session dataframe row that steps 2 and 3 read. -/
structure SessionRow where
  patient_id : Cell
  admission_date : Cell
  death_date : Cell
  outcome : Cell
deriving DecidableEq

/-- Month label of a row in steps 2 and 3:
`pd.to_datetime(admission_date).dt.to_period("M").astype(str)`; an
unparseable date stringifies to "NaT". -/
def rowMonth (r : SessionRow) : String :=
  match toDT r.admission_date with
  | Cell.date y m _ => periodStr y m
  | _ => "NaT"

/-- Step 2's death indicator (lines 40–46): lowercased outcome text
contains "dead" or equals "death", or the death date parses. -/
def is_death_step2 (r : SessionRow) : Bool :=
  let o := pyLower (cellToStr r.outcome)
  (pyContains o "dead" || o = "death") || isDate (toDT r.death_date)

/-- Step 3's death indicator (lines 38–42): lowercased stripped outcome
text contains "dead", or the death date parses. -/
def is_death_step3 (r : SessionRow) : Bool :=
  let o := pyStrip (pyLower (cellToStr r.outcome))
  pyContains o "dead" || isDate (toDT r.death_date)

/-- Step 3's `mortality_stats(sub_df)` (lines 58–62): total admissions
(row count), total deaths, and the mortality rate
`(dead / adm * 100).round(2)` with the explicit 0 convention for an
empty group. -/
def mortality_stats (rows : List SessionRow) : Nat × Nat × ℚ :=
  let total_adm := rows.length
  let total_dead := (rows.filter is_death_step3).length
  let rate :=
    if total_adm > 0 then round2 ((total_dead : ℚ) / (total_adm : ℚ) * 100) else 0
  (total_adm, total_dead, rate)

/-- Lexicographic code-point comparison of char lists. -/
def strLeChars : List Char → List Char → Bool
  | [], _ => true
  | _ :: _, [] => false
  | a :: as, b :: bs =>
    if a.toNat < b.toNat then true
    else if b.toNat < a.toNat then false
    else strLeChars as bs

/-- Lexicographic string order, as Python `sorted` compares strings. -/
def pyStrLe (a b : String) : Bool := strLeChars a.data b.data

/-- Insert a string into a sorted list of strings. -/
def insertStr (x : String) : List String → List String
  | [] => [x]
  | y :: ys => if pyStrLe x y then x :: y :: ys else y :: insertStr x ys

/-- Insertion sort for strings, modelling Python's `sorted`. -/
def sortStrs : List String → List String
  | [] => []
  | x :: xs => insertStr x (sortStrs xs)

/-- Step 3's `months` (line 45): the sorted distinct month labels of
the dataset (`dropna` is a no-op here because the stringified month is
never NaN). -/
def monthsOf (rows : List SessionRow) : List String :=
  sortStrs (rows.map rowMonth).eraseDups

/-- Step 3's month-to-month comparison (lines 44–48 and 58–105): with
fewer than two distinct months the page warns and stops; otherwise it
reports each selected month's stats and the rate difference
`rate2 - rate1`. -/
def compareMonths (rows : List SessionRow) (month1 month2 : String) :
    Except String ((Nat × Nat × ℚ) × (Nat × Nat × ℚ) × ℚ) :=
  if (monthsOf rows).length < 2 then
    Except.error "You need data from at least two different months to compare."
  else
    let s1 := mortality_stats (rows.filter (fun r => rowMonth r = month1))
    let s2 := mortality_stats (rows.filter (fun r => rowMonth r = month2))
    Except.ok (s1, s2, s2.2.2 - s1.2.2)

/- ### Step 4: deaths by age group -/

/-- The columns of a row that step 4's age analysis reads; `outcome`
holds the detected outcome column (`outcome_norm` when present). -/
structure D4Row where
  outcome : Cell
  age_days : Cell
  age_months : Cell
  age_years : Cell
deriving DecidableEq

/-- Step 4's `compute_age_days(row)` (lines 44–51): first non-missing
of `age_days`, `age_months * 30`, `age_years * 365` (no rounding). -/
def compute_age_days (r : D4Row) : Option ℚ :=
  match toNumericCell r.age_days with
  | some d => some d
  | none =>
    match toNumericCell r.age_months with
    | some m => some (m * 30)
    | none =>
      match toNumericCell r.age_years with
      | some y => some (y * 365)
      | none => none
where
  /-- A cell's numeric value when it is a number, `none` when missing
  (step 4 reads the already-numeric session columns). -/
  toNumericCell (c : Cell) : Option ℚ :=
    match c with
    | Cell.num q => some q
    | _ => none

/-- Step 4's `age_group(days)` (lines 87–93). -/
def age_group (days : Option ℚ) : String :=
  match days with
  | none => "Unknown"
  | some d =>
    if d < 30 then "<1 month"
    else if d < 365 then "1–11 months"
    else if d < 5 * 365 then "1–4 years"
    else if d < 15 * 365 then "5–14 years"
    else "15+ years"

/-- The fixed bucket order step 4 reindexes to. -/
def bucketOrder : List String :=
  ["<1 month", "1–11 months", "1–4 years", "5–14 years", "15+ years", "Unknown"]

/-- Step 4's death filter (line 82): rows whose lowercased outcome text
equals "dead". -/
def isDeadRow (r : D4Row) : Bool :=
  pyLower (cellToStr r.outcome) = "dead"

/-- The age-group labels of the rows kept by step 4's death filter
(line 95: `deaths_df["age_group"] = deaths_df["age_days"].apply(age_group)`). -/
def deadAgeGroups (rows : List D4Row) : List String :=
  (rows.filter isDeadRow).map (fun r => age_group (compute_age_days r))

/-- Step 4's `age_counts` (lines 95–99): count deaths per age group,
reindex to the fixed bucket order, and drop buckets with no deaths
(`value_counts().reindex(...).dropna()`). -/
def age_counts (rows : List D4Row) : List (String × Nat) :=
  bucketOrder.filterMap (fun b =>
    let c := (deadAgeGroups rows).count b
    if c ≠ 0 then some (b, c) else none)

/- ### Concrete fixtures used by the claim theorems -/

/-- A table with none of the minimal columns. -/
def tableNoMinimal : RawTable :=
  ⟨[("patient_id", [Cell.str "1"]), ("sex", [Cell.str "M"])]⟩

/-- A table whose only minimal column carries surrounding whitespace in
its header. -/
def tableOutcomePadded : RawTable :=
  ⟨[("  outcome ", [Cell.str "Dead"])]⟩

/-- The three-row outcome scenario of the spec. -/
def tableThreeOutcomes : RawTable :=
  ⟨[("outcome", [Cell.str "DEAD", Cell.str "alive", Cell.str "deceased"])]⟩

/-- A table with an `admission_date` column and nothing else. -/
def tableAdmissionOnly : RawTable :=
  ⟨[("admission_date", [Cell.str "2025-09-01"])]⟩

/-- A table whose only age information is an `age_months` column. -/
def tableMonthsAge : RawTable :=
  ⟨[("age_months", [Cell.num 10])]⟩

/-- A table with a bare `age` column whose median is 10. -/
def tableBareAge : RawTable :=
  ⟨[("age", [Cell.num 5, Cell.num 10, Cell.num 20])]⟩

/-- The named column of the table returned by `validate_and_normalize`,
when one is returned. -/
def normColOf (t : RawTable) (c : String) : Option (List Cell) :=
  match (validate_and_normalize t).1 with
  | some n => getCol n c
  | none => none

/-- A step-4 row for a dead neonate, aged 10 days. -/
def d4DeadNeonate : D4Row := ⟨Cell.str "Dead", Cell.num 10, Cell.na, Cell.na⟩

/-- A step-4 row for a surviving infant. -/
def d4AliveInfant : D4Row := ⟨Cell.str "Alive", Cell.num 300, Cell.na, Cell.na⟩

/-- The second row of the bundled sample as steps 2 and 3 see it:
outcome `Alive` but with a death date recorded. -/
def sessionRow2 : SessionRow :=
  ⟨Cell.str "46781", Cell.str "2025-09-02", Cell.str "2025-09-04", Cell.str "Alive"⟩

/-- A September death row. -/
def sessionDead : SessionRow :=
  ⟨Cell.str "1", Cell.str "2025-09-01", Cell.str "2025-09-03", Cell.str "Dead"⟩

/-- A September survival row. -/
def sessionAlive : SessionRow :=
  ⟨Cell.str "2", Cell.str "2025-09-01", Cell.na, Cell.str "Alive"⟩

/-- Ten September admissions of which three are deaths. -/
def tenRows : List SessionRow :=
  List.replicate 3 sessionDead ++ List.replicate 7 sessionAlive

/-- A dataset whose rows all fall in one calendar month. -/
def oneMonthRows : List SessionRow := [sessionDead, sessionAlive]

/- ### Helper lemmas about the table operations -/

theorem getCol_setCol_self (t : RawTable) (n : String) (v : List Cell) :
    getCol (setCol t n v) n = some v := by
  unfold getCol setCol
  have hnone : (t.cols.filter (fun p => !(p.1 = n : Bool))).find? (fun p => (p.1 = n : Bool)) = none := by
    rw [List.find?_eq_none]
    intro x hx
    have := (List.mem_filter.mp hx).2
    simpa using this
  simp [List.find?_append, hnone, List.find?]

theorem getCol_setCol_ne (t : RawTable) (n m : String) (v : List Cell) (h : ¬ m = n) :
    getCol (setCol t n v) m = getCol t m := by
  obtain ⟨l⟩ := t
  have hnm : ¬ (n = m) := fun hc => h hc.symm
  unfold getCol setCol
  simp only []
  induction l with
  | nil => simp [List.find?, hnm]
  | cons a as ih =>
    by_cases han : a.1 = n
    · by_cases ham : a.1 = m
      · exact absurd (han ▸ ham) hnm
      · simpa [List.filter_cons, List.find?_cons, han, ham, h, hnm] using ih
    · by_cases ham : a.1 = m
      · simp [List.filter_cons, List.find?_cons, han, ham, h, hnm]
      · simpa [List.filter_cons, List.find?_cons, han, ham, h, hnm] using ih

theorem hasCol_setCol_ne (t : RawTable) (n m : String) (v : List Cell) (h : ¬ m = n) :
    hasCol (setCol t n v) m = hasCol t m := by
  have hnm : ¬ (n = m) := fun hc => h hc.symm
  unfold hasCol setCol
  simp [List.any_append, hnm]
  have hpt : ∀ a : String × List Cell, (!decide (a.1 = n) && decide (a.1 = m)) = decide (a.1 = m) := by
    intro a
    by_cases ham : a.1 = m
    · have han : ¬ a.1 = n := fun hc => h (ham.symm.trans hc)
      simp [ham, han, h]
    · simp [ham]
  simp only [hpt]

theorem hasCol_setCol_self (t : RawTable) (n : String) (v : List Cell) :
    hasCol (setCol t n v) n = true := by
  unfold hasCol setCol
  simp [List.any_append]

/- ### Helper lemmas about rounding -/

theorem ratFloor_intCast (n : ℤ) : ratFloor ((n : ℚ)) = n := by
  unfold ratFloor
  simp [Rat.num_intCast, Rat.den_intCast, Int.fdiv_one]

theorem roundHalfEven_intCast (n : ℤ) : roundHalfEven ((n : ℚ)) = n := by
  unfold roundHalfEven
  rw [ratFloor_intCast]
  norm_num

theorem round2_intCast (n : ℤ) : round2 ((n : ℚ)) = (n : ℚ) := by
  unfold round2
  have h : ((n : ℚ)) * 100 = (((n * 100 : ℤ)) : ℚ) := by push_cast; ring
  rw [h, roundHalfEven_intCast]
  push_cast
  field_simp

/- ### Helper lemmas about case conversion and title-casing -/

theorem toNat_ofNat_valid (n : Nat) (h : n.isValidChar) : (Char.ofNat n).toNat = n := by
  simp [Char.ofNat, Char.toNat, h, Char.ofNatAux]
  rfl

theorem toLower_def (c : Char) :
    c.toLower = if c.toNat >= 65 ∧ c.toNat <= 90 then Char.ofNat (c.toNat + 32) else c := rfl

theorem toUpper_def (c : Char) :
    c.toUpper = if c.toNat >= 97 ∧ c.toNat <= 122 then Char.ofNat (c.toNat - 32) else c := rfl

theorem ofNat_toNat_char (c : Char) : Char.ofNat c.toNat = c := by
  have hv : c.toNat.isValidChar := c.valid
  apply Char.ext
  have := toNat_ofNat_valid c.toNat hv
  simp only [Char.toNat] at this
  exact UInt32.ext this

theorem toLower_idem (c : Char) : c.toLower.toLower = c.toLower := by
  rw [toLower_def c]
  by_cases h : c.toNat >= 65 ∧ c.toNat <= 90
  · rw [if_pos h, toLower_def, toNat_ofNat_valid _ (Or.inl (by omega))]
    rw [if_neg (by omega)]
  · rw [if_neg h, toLower_def, if_neg h]

theorem toLower_toUpper_toLower (c : Char) :
    c.toLower.toUpper.toLower = c.toLower := by
  rw [toLower_def c]
  by_cases h : c.toNat >= 65 ∧ c.toNat <= 90
  · rw [if_pos h, toUpper_def, toNat_ofNat_valid _ (Or.inl (by omega)), if_pos (by omega)]
    have e : c.toNat + 32 - 32 = c.toNat := by omega
    rw [e, toLower_def, toNat_ofNat_valid _ (Or.inl (by omega)), if_pos h]
  · rw [if_neg h, toUpper_def]
    by_cases h2 : c.toNat >= 97 ∧ c.toNat <= 122
    · rw [if_pos h2, toLower_def, toNat_ofNat_valid _ (Or.inl (by omega)), if_pos (by omega)]
      have e : c.toNat - 32 + 32 = c.toNat := by omega
      rw [e, ofNat_toNat_char]
    · rw [if_neg h2, toLower_def, if_neg h]

theorem titleAux_map_toLower (cs : List Char) :
    ∀ b, (titleAux b (cs.map Char.toLower)).map Char.toLower = cs.map Char.toLower := by
  induction cs with
  | nil => intro b; rfl
  | cons c rest ih =>
    intro b
    show (titleAux b (Char.toLower c :: rest.map Char.toLower)).map Char.toLower
        = Char.toLower c :: rest.map Char.toLower
    unfold titleAux
    simp only [List.map_cons]
    congr 1
    · by_cases ha : (Char.toLower c).isAlpha = true
      · rw [if_pos ha]
        cases b with
        | true => rw [if_pos rfl, toLower_idem, toLower_idem]
        | false => rw [if_neg (by decide), toLower_toUpper_toLower]
      · rw [if_neg ha, toLower_idem]
    · exact ih _

theorem pyLower_pyTitle_pyLower (s : String) :
    pyLower (pyTitle (pyLower s)) = pyLower s :=
  congrArg String.mk (titleAux_map_toLower s.data false)

/-- A raw outcome text normalizes to `Dead` exactly when its normalized
form lowercases to "dead" — the condition step 4's death filter tests. -/
theorem outcome_dead_iff (s : String) :
    pyLower (outcomeNormStr s) = "dead" ↔ outcomeNormStr s = "Dead" := by
  unfold outcomeNormStr
  by_cases h1 : (pyContains (pyLower (pyStrip s)) "dead" || pyStarts (pyLower (pyStrip s)) "d") = true
  · rw [if_pos h1]
    exact iff_of_true (by decide) rfl
  · rw [if_neg h1]
    by_cases h2 : (pyContains (pyLower (pyStrip s)) "alive" || pyStarts (pyLower (pyStrip s)) "a") = true
    · rw [if_pos h2]
      exact iff_of_false (by decide) (by decide)
    · rw [if_neg h2]
      have hlt : pyLower (pyTitle (pyLower (pyStrip s))) = pyLower (pyStrip s) :=
        pyLower_pyTitle_pyLower (pyStrip s)
      constructor
      · intro hd
        rw [hlt] at hd
        exact absurd (by rw [hd]; decide) h1
      · intro hD
        have h3 : pyLower (pyTitle (pyLower (pyStrip s))) = pyLower "Dead" := by rw [hD]
        rw [hlt] at h3
        exact absurd (by rw [h3]; decide) h1


/- ### Pipeline preservation lemmas and claim theorems -/

/-- Mapping first components over a filterMap that preserves its input key yields a sublist of the input list. -/
theorem filterMap_fst_sublist (l : List String) (f : String → Option (String × Nat))
    (hf : ∀ a p, f a = some p → p.1 = a) :
    ((l.filterMap f).map Prod.fst).Sublist l := by
  induction l with
  | nil => simp
  | cons a as ih =>
    cases hfa : f a with
    | none =>
      simp only [List.filterMap_cons, hfa]
      exact ih.cons a
    | some p =>
      simp only [List.filterMap_cons, hfa, List.map_cons]
      rw [hf a p hfa]
      exact ih.cons₂ a

/-- Reassigning an existing column changes no column-presence fact. -/
theorem hasCol_setCol_present (t : RawTable) (n : String) (v : List Cell)
    (h : hasCol t n = true) (m : String) :
    hasCol (setCol t n v) m = hasCol t m := by
  by_cases hm : m = n
  · subst hm
    rw [hasCol_setCol_self, h]
  · exact hasCol_setCol_ne t n m v hm

/-- One step of the date-coercion fold preserves column presence. -/
theorem hasCol_dateStep (t : RawTable) (c m : String) :
    hasCol (if hasCol t c then setCol t c ((getColD t c).map toDT) else t) m = hasCol t m := by
  split_ifs with h
  · exact hasCol_setCol_present t c _ h m
  · rfl

/-- Date coercion preserves column presence. -/
theorem hasCol_coerceDates (t : RawTable) (m : String) :
    hasCol (coerceDates t) m = hasCol t m := by
  unfold coerceDates recognized_date_cols
  simp only [List.foldl_cons, List.foldl_nil]
  rw [hasCol_dateStep, hasCol_dateStep, hasCol_dateStep]

/-- Age derivation only ever writes the `age_days` column. -/
theorem hasCol_deriveAge_ne (t : RawTable) (m : String) (hm : ¬ m = "age_days") :
    hasCol (deriveAge t).1 m = hasCol t m := by
  unfold deriveAge
  dsimp only
  split_ifs <;> first | rfl | exact hasCol_setCol_ne t "age_days" m _ hm

/-- Sex normalization only writes the `sex_norm` column. -/
theorem hasCol_normSex_ne (t : RawTable) (m : String) (hm : ¬ m = "sex_norm") :
    hasCol (normSex t).1 m = hasCol t m := by
  unfold normSex
  split_ifs <;> exact hasCol_setCol_ne t "sex_norm" m _ hm

/-- Outcome normalization only writes the `outcome_norm` column. -/
theorem hasCol_normOutcome_ne (t : RawTable) (m : String) (hm : ¬ m = "outcome_norm") :
    hasCol (normOutcome t).1 m = hasCol t m := by
  unfold normOutcome
  split_ifs <;> exact hasCol_setCol_ne t "outcome_norm" m _ hm

/-- Outcome normalization leaves every other column's value unchanged. -/
theorem getCol_normOutcome_ne (t : RawTable) (m : String) (hm : ¬ m = "outcome_norm") :
    getCol (normOutcome t).1 m = getCol t m := by
  unfold normOutcome
  split_ifs <;> exact getCol_setCol_ne t "outcome_norm" m _ hm

/-- Diagnosis normalization leaves every other column's value unchanged. -/
theorem getCol_normDiag_ne (t : RawTable) (m : String) (hm : ¬ m = "primary_diagnosis") :
    getCol (normDiag t).1 m = getCol t m := by
  unfold normDiag
  split_ifs with h
  · rfl
  · cases halt : col_exists_any t diag_aliases with
    | some alt =>
      simp only [halt]
      exact getCol_setCol_ne t "primary_diagnosis" m _ hm
    | none =>
      simp only [halt]
      exact getCol_setCol_ne t "primary_diagnosis" m _ hm

/-- Month derivation leaves every other column's value unchanged. -/
theorem getCol_deriveMonth_ne (t : RawTable) (m : String) (hm : ¬ m = "month") :
    getCol (deriveMonth t).1 m = getCol t m := by
  unfold deriveMonth
  split_ifs <;> exact getCol_setCol_ne t "month" m _ hm

/-- Claim C1: for every raw table whose trimmed column names include none of
admission_date, outcome, primary_diagnosis, `validate_and_normalize` returns
no table together with a non-empty fatal error list; conversely, when at
least one of the three is present, it returns a normalized table with an
empty error list. -/
theorem C1_minimal_columns :
    ∀ t : RawTable,
      (minPresent (stripCols t) = false →
        (validate_and_normalize t).1 = none ∧ (validate_and_normalize t).2.1 ≠ [])
      ∧ (minPresent (stripCols t) = true →
        (∃ n, (validate_and_normalize t).1 = some n) ∧ (validate_and_normalize t).2.1 = []) := by
  intro t
  constructor
  · intro h
    unfold validate_and_normalize
    rw [if_neg (by simp [h])]
    exact ⟨rfl, by simp⟩
  · intro h
    unfold validate_and_normalize
    rw [if_pos h]
    exact ⟨⟨_, rfl⟩, rfl⟩

/-- Witness for C1 at a table with no minimal column and at a table whose padded header trims to `outcome`. -/
theorem C1_witness :
    (minPresent (stripCols tableNoMinimal) = false
      ∧ (validate_and_normalize tableNoMinimal).1 = none
      ∧ (validate_and_normalize tableNoMinimal).2.1 ≠ [])
    ∧ (minPresent (stripCols tableOutcomePadded) = true
      ∧ (∃ n, (validate_and_normalize tableOutcomePadded).1 = some n)
      ∧ (validate_and_normalize tableOutcomePadded).2.1 = []) := by
  refine ⟨⟨by decide, ?_, ?_⟩, ⟨by decide, ?_, ?_⟩⟩
  · exact ((C1_minimal_columns tableNoMinimal).1 (by decide)).1
  · exact ((C1_minimal_columns tableNoMinimal).1 (by decide)).2
  · exact ((C1_minimal_columns tableOutcomePadded).2 (by decide)).1
  · exact ((C1_minimal_columns tableOutcomePadded).2 (by decide)).2

/-- Counterexample to claim C2: normalizing the outcomes DEAD, alive,
deceased yields Dead, Alive, Dead — the third row IS recognized as Dead
(leading-d prefix), not title-cased to Deceased as the claim states. -/
theorem C2_counterexample :
    normColOf tableThreeOutcomes "outcome_norm"
      = some [Cell.str "Dead", Cell.str "Alive", Cell.str "Dead"]
    ∧ (Cell.str "Dead" : Cell) ≠ Cell.str "Deceased" := by decide

/-- Claim C2 (amended): the three rows normalize to Dead, Alive, Dead;
"deceased" is recognized as Dead through the leading-`d` prefix rule, and
only a value matching neither the dead nor the alive pattern (such as
"recovered") is title-cased and passed through as-is. -/
theorem C2_amended :
    normColOf tableThreeOutcomes "outcome_norm"
      = some [Cell.str "Dead", Cell.str "Alive", Cell.str "Dead"]
    ∧ outcomeNormStr "DEAD" = "Dead" ∧ outcomeNormStr "alive" = "Alive"
    ∧ outcomeNormStr "deceased" = "Dead"
    ∧ outcomeNormStr "recovered" = "Recovered" := by decide

/-- Claim C3: in `mortality_stats` the admission count is the group size,
the mortality rate equals deaths divided by admissions times 100 rounded to
2 decimals whenever the group is non-empty, a group with zero admissions
gets rate 0 by convention, and 10 admissions with 3 deaths give 30.00. -/
theorem C3_mortality_rate :
    (∀ rows : List SessionRow,
      (mortality_stats rows).1 = rows.length
      ∧ (rows.length ≠ 0 →
          (mortality_stats rows).2.2
            = round2 (((mortality_stats rows).2.1 : ℚ) / (rows.length : ℚ) * 100))
      ∧ (rows.length = 0 → (mortality_stats rows).2.2 = 0))
    ∧ (mortality_stats tenRows).1 = 10 ∧ (mortality_stats tenRows).2.1 = 3
    ∧ (mortality_stats tenRows).2.2 = 30 := by
  refine ⟨?_, by decide, by decide, ?_⟩
  · intro rows
    refine ⟨rfl, ?_, ?_⟩
    · intro h
      simp only [mortality_stats]
      rw [if_pos (Nat.pos_of_ne_zero h)]
    · intro h
      simp only [mortality_stats]
      rw [if_neg (by omega)]
  · have h1 : (tenRows.filter is_death_step3).length = 3 := by decide
    have h2 : tenRows.length = 10 := by decide
    simp only [mortality_stats, h1, h2]
    rw [if_pos (by norm_num)]
    have e : ((3:ℕ):ℚ) / ((10:ℕ):ℚ) * 100 = ((30:ℤ):ℚ) := by push_cast; norm_num
    rw [e, round2_intCast]
    norm_num

/-- Witness for C3 at the empty group: the zero-admission convention gives rate 0. -/
theorem C3_witness :
    ([] : List SessionRow).length = 0 ∧ (mortality_stats ([] : List SessionRow)).2.2 = 0 :=
  ⟨rfl, (C3_mortality_rate.1 []).2.2 rfl⟩

/-- Counterexample to claim C4: a table having only `admission_date` passes
validation, yet its `outcome_norm` column is the missing value NA rather
than a definite placeholder value. -/
theorem C4_counterexample :
    (validate_and_normalize tableAdmissionOnly).1 ≠ none
    ∧ normColOf tableAdmissionOnly "outcome_norm" = some [Cell.na] := by decide

/-- Claim C4 (amended): in every successfully returned table, `sex_norm` is
a definite string for every record; `outcome_norm` is a definite string for
every record when the raw table has an `outcome` column but is missing (NA)
for every record when it does not; and `primary_diagnosis` is a definite
string for every record whenever the raw table lacks a `primary_diagnosis`
column (alias mapping or the UNKNOWN fill). -/
theorem C4_amended :
    ∀ t n, (validate_and_normalize t).1 = some n →
      (∃ l, getCol n "sex_norm" = some l ∧ ∀ c ∈ l, isStrCell c = true)
      ∧ (hasCol (stripCols t) "outcome" = true →
          ∃ l, getCol n "outcome_norm" = some l ∧ ∀ c ∈ l, isStrCell c = true)
      ∧ (hasCol (stripCols t) "outcome" = false →
          ∃ l, getCol n "outcome_norm" = some l ∧ ∀ c ∈ l, c = Cell.na)
      ∧ (hasCol (stripCols t) "primary_diagnosis" = false →
          ∃ l, getCol n "primary_diagnosis" = some l ∧ ∀ c ∈ l, isStrCell c = true) := by
  intro t n h
  unfold validate_and_normalize at h
  by_cases hmin : minPresent (stripCols t) = true
  case neg =>
    rw [if_neg (by simp [hmin])] at h
    exact absurd h (by simp)
  case pos =>
  rw [if_pos hmin] at h
  simp only [normalizePipeline] at h
  have hn : n
      = (deriveMonth (normDiag (normOutcome (normSex
          (deriveAge (coerceDates (stripCols t))).1).1).1).1).1 :=
    (Option.some.inj h).symm
  subst hn
  set s := stripCols t with hs
  set tA := (deriveAge (coerceDates s)).1 with htA
  refine ⟨?_, ?_, ?_, ?_⟩
  · rw [getCol_deriveMonth_ne _ _ (by decide), getCol_normDiag_ne _ _ (by decide),
      getCol_normOutcome_ne _ _ (by decide)]
    unfold normSex
    split_ifs with hsx
    · refine ⟨_, getCol_setCol_self _ _ _, ?_⟩
      intro c hc
      rw [List.mem_map] at hc
      obtain ⟨x, hx, rfl⟩ := hc
      unfold normSexCell
      dsimp only
      split_ifs <;> rfl
    · refine ⟨_, getCol_setCol_self _ _ _, ?_⟩
      intro c hc
      rw [List.eq_of_mem_replicate hc]
      rfl
  · intro hoc
    have hoc2 : hasCol (normSex tA).1 "outcome" = true := by
      rw [hasCol_normSex_ne _ _ (by decide), htA, hasCol_deriveAge_ne _ _ (by decide),
        hasCol_coerceDates]
      exact hoc
    rw [getCol_deriveMonth_ne _ _ (by decide), getCol_normDiag_ne _ _ (by decide)]
    unfold normOutcome
    rw [if_pos hoc2]
    refine ⟨_, getCol_setCol_self _ _ _, ?_⟩
    intro c hc
    rw [List.mem_map] at hc
    obtain ⟨x, hx, rfl⟩ := hc
    rfl
  · intro hoc
    have hoc2 : hasCol (normSex tA).1 "outcome" = false := by
      rw [hasCol_normSex_ne _ _ (by decide), htA, hasCol_deriveAge_ne _ _ (by decide),
        hasCol_coerceDates]
      exact hoc
    rw [getCol_deriveMonth_ne _ _ (by decide), getCol_normDiag_ne _ _ (by decide)]
    unfold normOutcome
    rw [if_neg (by simp [hoc2])]
    refine ⟨_, getCol_setCol_self _ _ _, ?_⟩
    intro c hc
    exact List.eq_of_mem_replicate hc
  · intro hdg
    have hdg2 : hasCol (normOutcome (normSex tA).1).1 "primary_diagnosis" = false := by
      rw [hasCol_normOutcome_ne _ _ (by decide), hasCol_normSex_ne _ _ (by decide), htA,
        hasCol_deriveAge_ne _ _ (by decide), hasCol_coerceDates]
      exact hdg
    rw [getCol_deriveMonth_ne _ _ (by decide)]
    unfold normDiag
    rw [if_neg (by simp [hdg2])]
    cases halt : col_exists_any (normOutcome (normSex tA).1).1 diag_aliases with
    | some alt =>
      simp only [halt]
      refine ⟨_, getCol_setCol_self _ _ _, ?_⟩
      intro c hc
      rw [List.mem_map] at hc
      obtain ⟨x, hx, rfl⟩ := hc
      rfl
    | none =>
      simp only [halt]
      refine ⟨_, getCol_setCol_self _ _ _, ?_⟩
      intro c hc
      rw [List.eq_of_mem_replicate hc]
      rfl

/-- Witness for C4 (amended) at the admission-date-only table. -/
theorem C4_witness :
    (∃ l, getCol ((validate_and_normalize tableAdmissionOnly).1.getD ⟨[]⟩) "sex_norm"
        = some l ∧ ∀ c ∈ l, isStrCell c = true)
    ∧ hasCol (stripCols tableAdmissionOnly) "outcome" = false
    ∧ (∃ l, getCol ((validate_and_normalize tableAdmissionOnly).1.getD ⟨[]⟩) "outcome_norm"
        = some l ∧ ∀ c ∈ l, c = Cell.na) := by
  have h : (validate_and_normalize tableAdmissionOnly).1
      = some ((validate_and_normalize tableAdmissionOnly).1.getD ⟨[]⟩) := by decide
  have H := C4_amended tableAdmissionOnly _ h
  exact ⟨H.1, by decide, H.2.2.1 (by decide)⟩

/-- Claim C5: `age_group` is total on missing-or-nonnegative ages and
partitions them into the six buckets with no overlap: missing maps to
Unknown, ages below 30 days to `<1 month`, 30–364 to `1–11 months`,
365–1824 to `1–4 years`, 1825–5474 to `5–14 years`, 5475 and above to
`15+ years`; the boundary days 30, 365, 1825 and 5475 land in the upper
bucket. -/
theorem C5_age_group_partition :
    age_group none = "Unknown"
    ∧ (∀ q : ℚ, 0 ≤ q →
        age_group (some q) ∈ bucketOrder
        ∧ (age_group (some q) = "<1 month" ↔ q < 30)
        ∧ (age_group (some q) = "1–11 months" ↔ 30 ≤ q ∧ q < 365)
        ∧ (age_group (some q) = "1–4 years" ↔ 365 ≤ q ∧ q < 1825)
        ∧ (age_group (some q) = "5–14 years" ↔ 1825 ≤ q ∧ q < 5475)
        ∧ (age_group (some q) = "15+ years" ↔ 5475 ≤ q))
    ∧ age_group (some 30) = "1–11 months"
    ∧ age_group (some 365) = "1–4 years"
    ∧ age_group (some 1825) = "5–14 years"
    ∧ age_group (some 5475) = "15+ years" := by
  refine ⟨rfl, ?_, by norm_num [age_group], by norm_num [age_group],
    by norm_num [age_group], by norm_num [age_group]⟩
  intro q hq
  have hred : age_group (some q)
      = (if q < 30 then "<1 month" else if q < 365 then "1–11 months"
         else if q < 5 * 365 then "1–4 years" else if q < 15 * 365 then "5–14 years"
         else "15+ years") := rfl
  rw [hred, show ((5:ℚ) * 365) = 1825 by norm_num, show ((15:ℚ) * 365) = 5475 by norm_num]
  split_ifs with h1 h2 h3 h4 <;>
    simp only [not_lt] at * <;>
    refine ⟨by decide, ?_, ?_, ?_, ?_, ?_⟩ <;>
    constructor <;>
    intro hh <;>
    first
      | rfl
      | trivial
      | exact absurd hh (by decide)
      | linarith

/-- Witness for C5 at age 45 days. -/
theorem C5_witness :
    (0:ℚ) ≤ 45 ∧ age_group (some 45) = "1–11 months" := by
  refine ⟨by norm_num, ?_⟩
  exact ((C5_age_group_partition.2.1 45 (by norm_num)).2.2.1).mpr ⟨by norm_num, by norm_num⟩

/-- Counterexample to claim C6: with a single neonatal death the output of
`age_counts` has one bucket only — buckets with zero deaths are dropped by
the `dropna()`, so the six fixed buckets are not all presented. -/
theorem C6_counterexample :
    age_counts [d4DeadNeonate] = [("<1 month", 1)]
    ∧ (age_counts [d4DeadNeonate]).map Prod.fst ≠ bucketOrder := by decide

/-- Claim C6 (amended): `age_counts` counts only records kept by the death
filter, which keeps exactly the records whose normalized outcome is Dead;
its output lists buckets in the fixed order, restricted to the buckets with
at least one death (zero-count buckets are dropped), pairing each with its
death count. -/
theorem C6_amended :
    (∀ rows : List D4Row,
      ((age_counts rows).map Prod.fst).Sublist bucketOrder
      ∧ (∀ p, p ∈ age_counts rows → p.2 = (deadAgeGroups rows).count p.1 ∧ p.2 ≠ 0)
      ∧ (∀ b, b ∈ bucketOrder → (deadAgeGroups rows).count b ≠ 0 →
          (b, (deadAgeGroups rows).count b) ∈ age_counts rows))
    ∧ (∀ (s : String) (a m y : Cell),
        isDeadRow ⟨Cell.str (outcomeNormStr s), a, m, y⟩ = true ↔ outcomeNormStr s = "Dead")
    ∧ isDeadRow d4DeadNeonate = true ∧ isDeadRow d4AliveInfant = false
    ∧ isDeadRow ⟨Cell.na, Cell.na, Cell.na, Cell.na⟩ = false := by
  refine ⟨?_, ?_, by decide, by decide, by decide⟩
  · intro rows
    refine ⟨?_, ?_, ?_⟩
    · unfold age_counts
      apply filterMap_fst_sublist
      intro a p hp
      simp only at hp
      split_ifs at hp with hc
      cases hp
      rfl
    · intro p hp
      unfold age_counts at hp
      rw [List.mem_filterMap] at hp
      obtain ⟨b, hb, hfb⟩ := hp
      simp only at hfb
      split_ifs at hfb with hc
      cases hfb
      exact ⟨rfl, hc⟩
    · intro b hb hc
      unfold age_counts
      rw [List.mem_filterMap]
      refine ⟨b, hb, ?_⟩
      simp only
      rw [if_pos hc]
  · intro s a m y
    unfold isDeadRow
    simp only [cellToStr]
    rw [decide_eq_true_eq]
    exact outcome_dead_iff s

/-- Witness for C6 (amended): the neonatal bucket with its count is listed for a concrete dataset. -/
theorem C6_witness :
    ("<1 month" ∈ bucketOrder ∧ (deadAgeGroups [d4DeadNeonate, d4AliveInfant]).count "<1 month" ≠ 0)
    ∧ ("<1 month", (deadAgeGroups [d4DeadNeonate, d4AliveInfant]).count "<1 month")
        ∈ age_counts [d4DeadNeonate, d4AliveInfant] := by
  refine ⟨⟨by decide, by decide⟩, ?_⟩
  exact (C6_amended.1 [d4DeadNeonate, d4AliveInfant]).2.2 "<1 month" (by decide) (by decide)

/-- Claim C7: `age_days` is derived per dataset with precedence age_days
over bare age over age_months over age_years; the months path derives
round(m * 30) for each row, the years path round(y * 365), and a bare age
column is read through the dataset-wide median: at most 30 the values pass
through as days, below 100 they are months times 30 rounded, otherwise
years times 365 rounded. -/
theorem C7_age_precedence :
    ∀ t : RawTable,
      (hasCol t "age_days" = true → (deriveAge t).1 = t)
      ∧ (hasCol t "age_days" = false → hasCol t "age" = false → hasCol t "age_months" = true →
          getCol (deriveAge t).1 "age_days" = some ((getColD t "age_months").map (scaleRound 30)))
      ∧ (hasCol t "age_days" = false → hasCol t "age" = false → hasCol t "age_months" = false →
          hasCol t "age_years" = true →
          getCol (deriveAge t).1 "age_days" = some ((getColD t "age_years").map (scaleRound 365)))
      ∧ (hasCol t "age_days" = false → hasCol t "age" = true →
          ((getColD t "age").filterMap toNumeric) ≠ [] →
          (median ((getColD t "age").filterMap toNumeric) ≤ 30 →
            getCol (deriveAge t).1 "age_days" = some ((getColD t "age").map coerceNumCell))
          ∧ (30 < median ((getColD t "age").filterMap toNumeric) →
              median ((getColD t "age").filterMap toNumeric) < 100 →
            getCol (deriveAge t).1 "age_days" = some ((getColD t "age").map (scaleRound 30)))
          ∧ (100 ≤ median ((getColD t "age").filterMap toNumeric) →
            getCol (deriveAge t).1 "age_days" = some ((getColD t "age").map (scaleRound 365))))
      ∧ (∀ m : ℚ, scaleRound 30 (Cell.num m) = Cell.num ((roundHalfEven (m * 30) : ℤ) : ℚ))
      ∧ (∀ y : ℚ, scaleRound 365 (Cell.num y) = Cell.num ((roundHalfEven (y * 365) : ℤ) : ℚ)) := by
  intro t
  refine ⟨?_, ?_, ?_, ?_, fun m => rfl, fun y => rfl⟩
  · intro h
    unfold deriveAge
    rw [if_pos h]
  · intro h1 h2 h3
    unfold deriveAge
    rw [if_neg (by simp [h1]), if_neg (by simp [h2]), if_pos h3, getCol_setCol_self]
  · intro h1 h2 h3 h4
    unfold deriveAge
    rw [if_neg (by simp [h1]), if_neg (by simp [h2]), if_neg (by simp [h3]), if_pos h4,
      getCol_setCol_self]
  · intro h1 h2 hne
    unfold deriveAge
    rw [if_neg (by simp [h1]), if_pos h2]
    have hne2 : ((getColD t "age").filterMap toNumeric).isEmpty = false := by
      cases hcase : (getColD t "age").filterMap toNumeric with
      | nil => exact absurd hcase hne
      | cons x xs => rfl
    rw [if_neg (by simp [hne2])]
    refine ⟨?_, ?_, ?_⟩
    · intro hmed
      rw [if_pos hmed, getCol_setCol_self]
    · intro hm1 hm2
      rw [if_neg (not_le.mpr hm1), if_pos hm2, getCol_setCol_self]
    · intro hm
      rw [if_neg (by intro hc; linarith), if_neg (by intro hc; linarith), getCol_setCol_self]

/-- Witness for C7 on a months-only table and a bare-age table of median 10. -/
theorem C7_witness :
    (hasCol tableMonthsAge "age_days" = false ∧ hasCol tableMonthsAge "age" = false
      ∧ hasCol tableMonthsAge "age_months" = true
      ∧ getCol (deriveAge tableMonthsAge).1 "age_days"
          = some ((getColD tableMonthsAge "age_months").map (scaleRound 30)))
    ∧ (hasCol tableBareAge "age_days" = false ∧ hasCol tableBareAge "age" = true
      ∧ ((getColD tableBareAge "age").filterMap toNumeric) ≠ []
      ∧ median ((getColD tableBareAge "age").filterMap toNumeric) ≤ 30
      ∧ getCol (deriveAge tableBareAge).1 "age_days"
          = some ((getColD tableBareAge "age").map coerceNumCell)) := by
  refine ⟨⟨by decide, by decide, by decide, ?_⟩,
    ⟨by decide, by decide, by decide, by decide, ?_⟩⟩
  · exact (C7_age_precedence tableMonthsAge).2.1 (by decide) (by decide) (by decide)
  · exact ((C7_age_precedence tableBareAge).2.2.2.1 (by decide) (by decide) (by decide)).1
      (by decide)

/-- Claim C8: month comparison on fewer than two distinct month labels
reports the insufficient-data error without computing any statistic, and
with enough months reports each selected month's admissions, deaths and
rate together with the rate difference rate2 minus rate1. -/
theorem C8_compare_months :
    ∀ (rows : List SessionRow) (m1 m2 : String),
      ((monthsOf rows).length < 2 →
        compareMonths rows m1 m2
          = Except.error "You need data from at least two different months to compare.")
      ∧ (2 ≤ (monthsOf rows).length →
        compareMonths rows m1 m2
          = Except.ok (mortality_stats (rows.filter (fun r => rowMonth r = m1)),
              mortality_stats (rows.filter (fun r => rowMonth r = m2)),
              (mortality_stats (rows.filter (fun r => rowMonth r = m2))).2.2
                - (mortality_stats (rows.filter (fun r => rowMonth r = m1))).2.2)) := by
  intro rows m1 m2
  constructor
  · intro h
    unfold compareMonths
    rw [if_pos h]
  · intro h
    unfold compareMonths
    rw [if_neg (by omega)]

/-- Witness for C8 at a dataset with one distinct month. -/
theorem C8_witness :
    (monthsOf oneMonthRows).length < 2
    ∧ compareMonths oneMonthRows "2025-09" "2025-10"
        = Except.error "You need data from at least two different months to compare." :=
  ⟨by decide, (C8_compare_months oneMonthRows "2025-09" "2025-10").1 (by decide)⟩

/-- Claim C9: encoding the bundled two-row sample table to CSV, decoding
it, and normalizing the result yields no fatal error, a table, and exactly
one Dead and one Alive normalized outcome. -/
theorem C9_roundtrip :
    (validate_and_normalize (decodeCsv (encodeCsv sample_df))).2.1 = []
    ∧ (validate_and_normalize (decodeCsv (encodeCsv sample_df))).1 ≠ none
    ∧ ((normColOf (decodeCsv (encodeCsv sample_df)) "outcome_norm").getD []).count (Cell.str "Dead") = 1
    ∧ ((normColOf (decodeCsv (encodeCsv sample_df)) "outcome_norm").getD []).count (Cell.str "Alive") = 1 := by
  decide

/-- Claim C10: in steps 2 and 3 every record with a parseable death_date is
counted as a death regardless of its outcome text; in particular the
bundled sample's second row (outcome Alive with a death date) is a death
and yields a 100 percent rate on its own. -/
theorem C10_death_date :
    (∀ r : SessionRow, isDate (toDT r.death_date) = true →
      is_death_step2 r = true ∧ is_death_step3 r = true)
    ∧ is_death_step2 sessionRow2 = true ∧ is_death_step3 sessionRow2 = true
    ∧ cellToStr sessionRow2.outcome = "Alive"
    ∧ (mortality_stats [sessionRow2]).1 = 1 ∧ (mortality_stats [sessionRow2]).2.1 = 1
    ∧ (mortality_stats [sessionRow2]).2.2 = 100 := by
  refine ⟨?_, by decide, by decide, by decide, by decide, by decide, ?_⟩
  · intro r h
    unfold is_death_step2 is_death_step3
    rw [h]
    simp
  · have h1 : (([sessionRow2]).filter is_death_step3).length = 1 := by decide
    simp only [mortality_stats, h1, List.length_cons, List.length_nil]
    norm_num
    have e : (100 : ℚ) = ((100 : ℤ) : ℚ) := by norm_num
    rw [e, round2_intCast]

/-- Witness for C10 at a row carrying a parseable death date. -/
theorem C10_witness :
    isDate (toDT sessionDead.death_date) = true ∧ is_death_step2 sessionDead = true :=
  ⟨by decide, (C10_death_date.1 sessionDead (by decide)).1⟩

end MortalityAudit
